import Mathlib

/-!
Shallow embedding of the PTP slave / health-monitor core
(`src/dpdk_vmc_1`, `src/dpdk_vmc_2`) and verification of the frozen claims.

PTP side (from `ptp_types.h`, `ptp_state.c`, `ptp_packet.c`):
machine integers are modelled as `Nat` (unsigned) / `Int` (signed) with
explicit wraps where the code performs fixed-width arithmetic; packets are
`List Nat` byte buffers read big-endian as in the source's packed structs.
-/

namespace SeqUpdate

/-- Read one byte of a packet buffer (out-of-range reads give zero). -/
def rd1 (b : List Nat) (i : Nat) : Nat := b.getD i 0

/-- Read a big-endian 16-bit field, as `parse_2byte_be` / `rte_be_to_cpu_16`
on a packed field do. -/
def rd2 (b : List Nat) (i : Nat) : Nat := rd1 b i * 256 + rd1 b (i + 1)

/-- Read a big-endian 32-bit field (`parse_4byte_be` / `rte_be_to_cpu_32`). -/
def rd4 (b : List Nat) (i : Nat) : Nat :=
  rd1 b i * 16777216 + rd1 b (i + 1) * 65536 + rd1 b (i + 2) * 256 + rd1 b (i + 3)

/-- Read a big-endian 40-bit field (`parse_5byte_be`). -/
def rd5 (b : List Nat) (i : Nat) : Nat :=
  rd1 b i * 4294967296 + rd1 b (i + 1) * 16777216 + rd1 b (i + 2) * 65536 +
    rd1 b (i + 3) * 256 + rd1 b (i + 4)

/-- Read a big-endian 48-bit field (`parse_6byte_be`). -/
def rd6 (b : List Nat) (i : Nat) : Nat :=
  rd1 b i * 1099511627776 + rd1 b (i + 1) * 4294967296 + rd1 b (i + 2) * 16777216 +
    rd1 b (i + 3) * 65536 + rd1 b (i + 4) * 256 + rd1 b (i + 5)

/-- Two's-complement wrap of a mathematical integer into a signed 64-bit
value, modelling C `int64_t` arithmetic results and u64→i64 casts. -/
def i64 (x : Int) : Int := (x + 9223372036854775808) % 18446744073709551616 - 9223372036854775808

/-- `int64_t` division truncates toward zero in C (`Int.tdiv` in Lean). -/
def cdiv (a b : Int) : Int := Int.tdiv a b

-- ==========================================
-- PTP data model (ptp_types.h)
-- ==========================================

/-- `ptp_state_t` from `ptp_types.h`. -/
inductive PtpState where
  | INIT | LISTENING | SYNC_RECEIVED | DELAY_REQ_SENT | SYNCED | ERROR
deriving DecidableEq, Repr

/-- `ptp_port_identity_t`: 8 clock-identity bytes plus a 16-bit port number
(stored here in decoded numeric form). -/
structure PtpPortIdentity where
  clock_identity : List Nat
  port_number : Nat
deriving DecidableEq, Repr

/-- `ptp_timestamp_t` with the three wire fields in decoded (big-endian
numeric) form: 16-bit `seconds_msb`, 32-bit `seconds_lsb`, 32-bit
`nanoseconds`. -/
structure ptp_timestamp_t where
  seconds_msb : Nat
  seconds_lsb : Nat
  nanoseconds : Nat
deriving DecidableEq, Repr

/-- `ptp_session_t` from `ptp_types.h` (the fields the core mutates). -/
structure ptp_session_t where
  port_id : Nat
  tx_port_id : Nat
  vlan_id : Nat
  rx_vlan_id : Nat
  tx_vlan_id : Nat
  tx_vl_idx : Nat
  rx_vl_idx : Nat
  session_idx : Nat
  state : PtpState
  last_state_change : Nat
  master_port_id : PtpPortIdentity
  master_domain : Nat
  our_port_id : PtpPortIdentity
  sync_seq_id : Nat
  delay_req_seq_id : Nat
  last_delay_req_seq_id : Nat
  t1_ns : Nat
  t2_tsc : Nat
  t2_realtime_ns : Nat
  t3_tsc : Nat
  t3_realtime_ns : Nat
  t4_ns : Nat
  offset_ns : Int
  delay_ns : Int
  tsc_hz : Nat
  sync_rx_count : Nat
  delay_req_tx_count : Nat
  delay_resp_rx_count : Nat
  sync_timeout_count : Nat
  sync_errors : Nat
  last_sync_tsc : Nat
  last_delay_req_tsc : Nat
  is_synced : Bool
  sync_count : Nat
deriving DecidableEq, Repr

/-- `ptp_timestamp_to_ns` (ptp_types.h): uses only the 32-bit `seconds_lsb`
and `nanoseconds` fields; `seconds_msb` is ignored (DTN fixed constant). -/
def ptp_timestamp_to_ns (ts : ptp_timestamp_t) : Nat :=
  (ts.seconds_lsb % 4294967296) * 1000000000 + ts.nanoseconds % 4294967296

/-- `ns_to_ptp_timestamp` (ptp_types.h): sets `seconds_msb` to 0, truncates
seconds to the 32-bit `seconds_lsb` field. -/
def ns_to_ptp_timestamp (ns : Nat) : ptp_timestamp_t :=
  { seconds_msb := 0
    seconds_lsb := (ns / 1000000000) % 4294967296
    nanoseconds := ns % 1000000000 }

-- ==========================================
-- PTP state machine (dpdk_vmc_2/src/ptp/ptp_state.c)
-- ==========================================

/-- `ptp_handle_sync` (ptp_state.c). The decoded header fields
(`source_port_id`, `domain_number`, `sequence_id` after `rte_be_to_cpu_16`)
and the wall-clock reading `get_realtime_ns()` are passed in explicitly. -/
def ptp_handle_sync (s : ptp_session_t) (src_port_id : PtpPortIdentity)
    (domain seq_id : Nat) (ts : ptp_timestamp_t) (rx_tsc realtime_ns : Nat) :
    ptp_session_t :=
  let s := { s with master_port_id := src_port_id
                    master_domain := domain
                    sync_seq_id := seq_id
                    last_sync_tsc := rx_tsc }
  if s.state = PtpState.LISTENING ∨ s.state = PtpState.SYNCED ∨
      s.state = PtpState.ERROR then
    { s with t1_ns := ptp_timestamp_to_ns ts
             t2_tsc := rx_tsc
             t2_realtime_ns := realtime_ns
             state := PtpState.SYNC_RECEIVED
             last_state_change := rx_tsc }
  else s

/-- `ptp_calculate_offset_delay` (ptp_state.c): if `t4 == 0` both derived
values are zeroed; otherwise the int64 PTP formulas are evaluated.
`tsc_hz_g` is the file-static `tsc_hz` written into the session at the end. -/
def ptp_calculate_offset_delay (tsc_hz_g : Nat) (s : ptp_session_t) :
    ptp_session_t :=
  let s' :=
    if s.t4_ns = 0 then
      { s with delay_ns := 0, offset_ns := 0 }
    else
      let t2_minus_t1 : Int := i64 (i64 s.t2_realtime_ns - i64 s.t1_ns)
      let t4_minus_t3 : Int := i64 (i64 s.t4_ns - i64 s.t3_realtime_ns)
      { s with offset_ns := cdiv (i64 (t2_minus_t1 - t4_minus_t3)) 2
               delay_ns := cdiv (i64 (t2_minus_t1 + t4_minus_t3)) 2 }
  { s' with tsc_hz := tsc_hz_g }

/-- `ptp_handle_delay_resp` (ptp_state.c). `seq_id` is the decoded
`header.sequence_id`; `now_tsc` is the `rte_rdtsc()` reading used for
`last_state_change`. -/
def ptp_handle_delay_resp (tsc_hz_g : Nat) (s : ptp_session_t)
    (seq_id : Nat) (ts : ptp_timestamp_t) (now_tsc : Nat) : ptp_session_t :=
  if seq_id ≠ s.last_delay_req_seq_id then s
  else
    let s := { s with t4_ns := ptp_timestamp_to_ns ts }
    if s.state = PtpState.DELAY_REQ_SENT then
      let s := ptp_calculate_offset_delay tsc_hz_g s
      { s with state := PtpState.SYNCED
               is_synced := true
               sync_count := (s.sync_count + 1) % 4294967296
               last_state_change := now_tsc }
    else s

-- ==========================================
-- PTP packet codec (dpdk_vmc_1/src/ptp/ptp_packet.c)
-- ==========================================

/-- `PTP_ETHERTYPE` 0x88F7. -/
def PTP_ETHERTYPE : Nat := 0x88F7

/-- `RTE_ETHER_TYPE_VLAN` 0x8100. -/
def ETHERTYPE_VLAN : Nat := 0x8100

/-- `ptp_is_ptp_packet`: EtherType at frame offset 12, single optional
802.1Q tag (`sizeof(struct ptp_eth_frame)` = 18). -/
def ptp_is_ptp_packet (f : List Nat) : Bool :=
  if f.length < 14 then false
  else
    let et := rd2 f 12
    if et = PTP_ETHERTYPE then true
    else if et = ETHERTYPE_VLAN then
      if f.length < 18 then false else rd2 f 16 = PTP_ETHERTYPE
    else false

/-- `ptp_get_msg_type`: low nibble of the first PTP byte; `none` models the
C function's -1 on an unrecognized EtherType. -/
def ptp_get_msg_type (f : List Nat) : Option Nat :=
  let et := rd2 f 12
  if et = PTP_ETHERTYPE then some (rd1 f 14 % 16)
  else if et = ETHERTYPE_VLAN then some (rd1 f 18 % 16)
  else none

/-- `ptp_get_vlan_id`: 12-bit VID of the 802.1Q TCI, 0 when untagged. -/
def ptp_get_vlan_id (f : List Nat) : Nat :=
  if rd2 f 12 = ETHERTYPE_VLAN then rd2 f 14 % 4096 else 0

/-- `get_ptp_header`: byte offset of the PTP header within the frame. -/
def get_ptp_header_off (f : List Nat) : Option Nat :=
  let et := rd2 f 12
  if et = PTP_ETHERTYPE then some 14
  else if et = ETHERTYPE_VLAN then some 18
  else none

/-- Decode a wire `ptp_timestamp_t` at byte offset `i` (2-byte seconds_msb,
4-byte seconds_lsb, 4-byte nanoseconds, all big-endian). -/
def read_ptp_timestamp (f : List Nat) (i : Nat) : ptp_timestamp_t :=
  { seconds_msb := rd2 f i, seconds_lsb := rd4 f (i + 2),
    nanoseconds := rd4 f (i + 6) }

/-- Decode a wire `ptp_port_identity_t` at byte offset `i`. -/
def read_port_identity (f : List Nat) (i : Nat) : PtpPortIdentity :=
  { clock_identity := [rd1 f i, rd1 f (i+1), rd1 f (i+2), rd1 f (i+3),
                       rd1 f (i+4), rd1 f (i+5), rd1 f (i+6), rd1 f (i+7)]
    port_number := rd2 f (i + 8) }

/-- PTP message type codes used by the dispatcher. -/
def PTP_MSG_SYNC : Nat := 0x00
def PTP_MSG_DELAY_RESP : Nat := 0x09
def PTP_MSG_FOLLOW_UP : Nat := 0x08
def PTP_MSG_ANNOUNCE : Nat := 0x0B

/-- `ptp_packet_process` (ptp_packet.c): classify, check VLAN, dispatch to
the session handlers and bump the per-message counters. Returns the C int
result code together with the updated session. The time-source readings
(`rx_tsc`, wall clock, `rte_rdtsc`, the static `tsc_hz`) are parameters. -/
def ptp_packet_process (s : ptp_session_t) (f : List Nat)
    (rx_tsc realtime_ns now_tsc tsc_hz_g : Nat) : Int × ptp_session_t :=
  if ¬ ptp_is_ptp_packet f then (-1, s)
  else
    match ptp_get_msg_type f with
    | none => (-1, s)
    | some msg_type =>
      let vlan := ptp_get_vlan_id f
      if vlan ≠ s.rx_vlan_id then (-2, s)
      else
        match get_ptp_header_off f with
        | none => (-1, s)
        | some off =>
          if msg_type = PTP_MSG_SYNC then
            let s' := ptp_handle_sync s (read_port_identity f (off + 20))
                        (rd1 f (off + 4)) (rd2 f (off + 30))
                        (read_ptp_timestamp f (off + 34)) rx_tsc realtime_ns
            (0, { s' with sync_rx_count :=
                    (s'.sync_rx_count + 1) % 18446744073709551616 })
          else if msg_type = PTP_MSG_DELAY_RESP then
            let s' := ptp_handle_delay_resp tsc_hz_g s (rd2 f (off + 30))
                        (read_ptp_timestamp f (off + 34)) now_tsc
            (0, { s' with delay_resp_rx_count :=
                    (s'.delay_resp_rx_count + 1) % 18446744073709551616 })
          else if msg_type = PTP_MSG_FOLLOW_UP then (0, s)
          else if msg_type = PTP_MSG_ANNOUNCE then (0, s)
          else (-4, s)

/-- `ptp_init_port_identity` (ptp_packet.c): the DTN-matching hardcoded
identity 2C:1A:00:00:00:00:00:00, port 0. -/
def ptp_init_port_identity (s : ptp_session_t) : ptp_session_t :=
  { s with our_port_id :=
      { clock_identity := [0x2C, 0x1A, 0, 0, 0, 0, 0, 0], port_number := 0 } }

/-- Big-endian bytes of a 16-bit value (`rte_cpu_to_be_16` field store). -/
def be16bytes (v : Nat) : List Nat := [v / 256 % 256, v % 256]

/-- The frame bytes built by `ptp_send_delay_req` (ptp_packet.c lines
275-332): Ethernet header, 802.1Q tag, 34-byte PTP header, zeroed origin
timestamp, zero padding to the 106-byte DTN payload length. -/
def ptp_build_delay_req (s : ptp_session_t) : List Nat :=
  -- Ethernet: dst 03:00:00:00:VH:VL, src 02:00:00:00:00:20, TPID 0x8100
  [0x03, 0x00, 0x00, 0x00, s.tx_vl_idx / 256 % 256, s.tx_vl_idx % 256,
   0x02, 0x00, 0x00, 0x00, 0x00, 0x20] ++ be16bytes ETHERTYPE_VLAN ++
  -- 802.1Q: TCI = tx_vlan_id & 0x0FFF, inner EtherType 0x88F7
  be16bytes (s.tx_vlan_id % 4096) ++ be16bytes PTP_ETHERTYPE ++
  -- PTP header (34 bytes; struct zeroed first by memset)
  ([0x01,                      -- transport=0 | msg_type=Delay_Req(1)
    0x02] ++                   -- version
   be16bytes 106 ++            -- msg_length = PTP_MSG_LENGTH_PADDED
   [0x0A,                      -- domain_number = PTP_DEFAULT_DOMAIN
    0x00] ++                   -- reserved1
   be16bytes 0x0102 ++         -- flags (Wireshark capture)
   [0, 0, 0, 0, 0, 0, 0, 0] ++ -- correction = 0
   [0, 0, 0, 0] ++             -- reserved2
   [s.our_port_id.clock_identity.getD 0 0, s.our_port_id.clock_identity.getD 1 0,
    s.our_port_id.clock_identity.getD 2 0, s.our_port_id.clock_identity.getD 3 0,
    s.our_port_id.clock_identity.getD 4 0, s.our_port_id.clock_identity.getD 5 0,
    s.our_port_id.clock_identity.getD 6 0, s.our_port_id.clock_identity.getD 7 0] ++
   be16bytes (s.our_port_id.port_number % 65536) ++
   be16bytes (s.delay_req_seq_id % 65536) ++
   [0x01,                      -- control = PTP_CTRL_DELAY_REQ
    0xFF]) ++                  -- log_msg_interval = -1
  -- origin timestamp zeroed + padding to 106 PTP bytes
  List.replicate 72 0

/-- The session mutations `ptp_send_delay_req` performs after a successful
`rte_eth_tx_burst` (lines 357-362): record t3, remember the transmitted
sequence id, advance the 16-bit counter, bump the TX statistic. -/
def ptp_send_delay_req_update (s : ptp_session_t) (tx_tsc realtime_ns : Nat) :
    ptp_session_t :=
  { s with t3_tsc := tx_tsc
           t3_realtime_ns := realtime_ns
           last_delay_req_seq_id := s.delay_req_seq_id
           delay_req_seq_id := (s.delay_req_seq_id + 1) % 65536
           delay_req_tx_count := (s.delay_req_tx_count + 1) % 18446744073709551616
           last_delay_req_tsc := tx_tsc }

-- ==========================================
-- Health monitor (dpdk_vmc_1/src/health_monitor/health_monitor.c,
-- dpdk_vmc_2/include/health_types.h)
-- ==========================================

def HEALTH_UDP_PAYLOAD_OFFSET : Nat := 42
def HEALTH_DEVICE_HEADER_SIZE : Nat := 111
def HEALTH_MINI_HEADER_SIZE : Nat := 7
def HEALTH_PORT_DATA_SIZE : Nat := 129
def HEALTH_MAX_PORTS : Nat := 35
def HEALTH_PKT_SIZE_WITH_HEADER : Nat := 1187
def HEALTH_PKT_SIZE_8_PORTS : Nat := 1083
def HEALTH_PKT_SIZE_3_PORTS : Nat := 438
def STATUS_ENABLE_MANAGER : Nat := 0x01
def STATUS_ENABLE_ASSISTANT : Nat := 0x03
def MCU_OFF_FO_TRANS_TEMP : Nat := 48
def DEV_OFF_STATUS_ENABLE : Nat := 6

/-- `struct health_device_info` decoded from the 1187-byte frame. -/
structure health_device_info where
  device_id : Nat
  operation_type : Nat
  config_type : Nat
  frame_length : Nat
  status_enable : Nat
  status_addr : Nat
  tx_total_count : Nat
  rx_total_count : Nat
  tx_err_total_count : Nat
  rx_err_total_count : Nat
  heartbeat : Nat
  device_id2 : Nat
  port_count : Nat
  token_bucket_status : Nat
  sw_mode : Nat
  vendor_id : Nat
  auto_mac_update : Nat
  upstream_mode : Nat
  sw_ip_major : Nat
  sw_ip_minor : Nat
  sw_ip_patch : Nat
  es_ip_major : Nat
  es_ip_minor : Nat
  es_ip_patch : Nat
  sw_input_fifo_size : Nat
  pkt_pro_fifo_size : Nat
  sw_output_fifo_size : Nat
  hp_fifo_size : Nat
  lp_fifo_size : Nat
  be_fifo_size : Nat
  tod_ns : Nat
  tod_sec : Nat
  eth_wrong_dev_cnt : Nat
  eth_wrong_op_cnt : Nat
  eth_wrong_type_cnt : Nat
  fpga_voltage : Nat
  fpga_temp : Nat
  config_id : Nat
deriving DecidableEq, Repr

/-- `struct health_port_info`: one 129-byte per-port block. -/
structure health_port_info where
  port_number : Nat
  bit_status : Nat
  crc_err_count : Nat
  ali_err_count : Nat
  len_exc_64 : Nat
  len_exc_1518 : Nat
  min_vl_frame_err : Nat
  max_vl_frame_err : Nat
  inp_port_terr_cnt : Nat
  traffic_policy_drop : Nat
  be_count : Nat
  tx_count : Nat
  rx_count : Nat
  vl_source_err : Nat
  max_delay_err : Nat
  queue_overflow : Nat
  vlid_drop_count : Nat
  undef_mac_count : Nat
  hp_queue_overflow : Nat
  lp_queue_overflow : Nat
  be_queue_overflow : Nat
  max_delay_param : Nat
  port_speed : Nat
  valid : Bool
deriving DecidableEq, Repr

/-- `struct health_mcu_info`: the short MCU telemetry record. -/
structure health_mcu_info where
  device_id : Nat
  operation_type : Nat
  config_type : Nat
  frame_length : Nat
  status_enable : Nat
  fw_major : Nat
  fw_minor : Nat
  comp_stat : Nat
  comp_status : Nat
  volt_12v : Nat
  curr_12v : Nat
  volt_3v3 : Nat
  curr_3v3 : Nat
  volt_1v8 : Nat
  curr_1v8 : Nat
  volt_3v3_fo : Nat
  curr_3v3_fo : Nat
  curr_1v3 : Nat
  volt_1v3 : Nat
  curr_1v0_mgr : Nat
  volt_1v0_mgr : Nat
  volt_1v0_ast : Nat
  curr_1v0_ast : Nat
  vdiv_3v3 : Nat
  vdiv_3v3_fo : Nat
  vdiv_12v : Nat
  board_temp : Nat
  fo_trans_temp : Nat
  valid : Bool
deriving DecidableEq, Repr

/-- `struct health_fpga_data`: one per-cycle FPGA accumulator; `ports` is the
35-slot array. -/
structure health_fpga_data where
  device : health_device_info
  ports : List health_port_info
  packets_received : Nat
  device_info_valid : Bool
  port_count_received : Nat
deriving DecidableEq, Repr

/-- `struct health_cycle_data`. -/
structure health_cycle_data where
  assistant : health_fpga_data
  manager : health_fpga_data
  mcu : health_mcu_info
  total_responses_received : Nat
  last_fpga_type : Nat
deriving DecidableEq, Repr

/-- `parse_device_header` on the UDP payload starting at byte `u` of the
frame (offsets from health_types.h). -/
def parse_device_header (b : List Nat) (u : Nat) : health_device_info :=
  { device_id := rd2 b (u + 0)
    operation_type := rd1 b (u + 2)
    config_type := rd1 b (u + 3)
    frame_length := rd2 b (u + 4)
    status_enable := rd1 b (u + 6)
    status_addr := rd2 b (u + 7)
    tx_total_count := rd6 b (u + 9)
    rx_total_count := rd6 b (u + 15)
    tx_err_total_count := rd6 b (u + 21)
    rx_err_total_count := rd6 b (u + 27)
    heartbeat := rd1 b (u + 33)
    device_id2 := rd2 b (u + 34)
    port_count := rd1 b (u + 36)
    token_bucket_status := rd1 b (u + 37)
    sw_mode := rd1 b (u + 38)
    vendor_id := rd1 b (u + 42)
    auto_mac_update := rd1 b (u + 43)
    upstream_mode := rd1 b (u + 44)
    sw_ip_major := rd1 b (u + 45 + 3)
    sw_ip_minor := rd1 b (u + 45 + 4)
    sw_ip_patch := rd1 b (u + 45 + 5)
    es_ip_major := rd1 b (u + 51 + 3)
    es_ip_minor := rd1 b (u + 51 + 4)
    es_ip_patch := rd1 b (u + 51 + 5)
    sw_input_fifo_size := rd2 b (u + 57)
    pkt_pro_fifo_size := rd2 b (u + 59)
    sw_output_fifo_size := rd2 b (u + 61)
    hp_fifo_size := rd2 b (u + 63)
    lp_fifo_size := rd2 b (u + 65)
    be_fifo_size := rd2 b (u + 67)
    tod_ns := rd5 b (u + 70)
    tod_sec := rd5 b (u + 76)
    eth_wrong_dev_cnt := rd6 b (u + 81)
    eth_wrong_op_cnt := rd6 b (u + 87)
    eth_wrong_type_cnt := rd6 b (u + 93)
    fpga_voltage := rd2 b (u + 101)
    fpga_temp := rd2 b (u + 103)
    config_id := rd2 b (u + 105) }

/-- `parse_port_data` on a 129-byte port block starting at byte `p`. -/
def parse_port_data (b : List Nat) (p : Nat) : health_port_info :=
  { port_number := rd2 b (p + 0)
    bit_status := rd1 b (p + 2)
    crc_err_count := rd6 b (p + 3)
    ali_err_count := rd6 b (p + 9)
    len_exc_64 := rd6 b (p + 15)
    len_exc_1518 := rd6 b (p + 21)
    min_vl_frame_err := rd6 b (p + 27)
    max_vl_frame_err := rd6 b (p + 33)
    inp_port_terr_cnt := rd6 b (p + 39)
    traffic_policy_drop := rd6 b (p + 45)
    be_count := rd6 b (p + 51)
    tx_count := rd6 b (p + 57)
    rx_count := rd6 b (p + 63)
    vl_source_err := rd6 b (p + 69)
    max_delay_err := rd6 b (p + 75)
    queue_overflow := rd6 b (p + 81)
    vlid_drop_count := rd6 b (p + 87)
    undef_mac_count := rd6 b (p + 93)
    hp_queue_overflow := rd6 b (p + 99)
    lp_queue_overflow := rd6 b (p + 105)
    be_queue_overflow := rd6 b (p + 111)
    max_delay_param := rd6 b (p + 117)
    port_speed := rd6 b (p + 123)
    valid := true }

/-- `parse_mcu_data` on the UDP payload starting at byte `u`. The `valid`
flag is set by the caller. -/
def parse_mcu_data (b : List Nat) (u : Nat) (prev : health_mcu_info) :
    health_mcu_info :=
  { prev with
    device_id := rd2 b (u + 0)
    operation_type := rd1 b (u + 2)
    config_type := rd1 b (u + 3)
    frame_length := rd2 b (u + 4)
    status_enable := rd1 b (u + 6)
    fw_major := rd1 b (u + 7)
    fw_minor := rd1 b (u + 7 + 1)
    comp_stat := rd1 b (u + 9)
    comp_status := rd2 b (u + 10)
    volt_12v := rd2 b (u + 12)
    curr_12v := rd2 b (u + 14)
    volt_3v3 := rd2 b (u + 16)
    curr_3v3 := rd2 b (u + 18)
    volt_1v8 := rd2 b (u + 20)
    curr_1v8 := rd2 b (u + 22)
    volt_3v3_fo := rd2 b (u + 24)
    curr_3v3_fo := rd2 b (u + 26)
    curr_1v3 := rd2 b (u + 28)
    volt_1v3 := rd2 b (u + 30)
    curr_1v0_mgr := rd2 b (u + 32)
    volt_1v0_mgr := rd2 b (u + 34)
    volt_1v0_ast := rd2 b (u + 36)
    curr_1v0_ast := rd2 b (u + 38)
    vdiv_3v3 := rd2 b (u + 40)
    vdiv_3v3_fo := rd2 b (u + 42)
    vdiv_12v := rd2 b (u + 44)
    board_temp := rd2 b (u + 46)
    fo_trans_temp := rd2 b (u + 48) }

/-- The port-block loop of `health_parse_response` (lines 309-323): parse
`n` blocks, store each into the slot indexed by its own port number when it
is below `HEALTH_MAX_PORTS`, counting stored ports (uint8 counter). -/
def health_parse_ports (b : List Nat) (base n : Nat)
    (fpga : health_fpga_data) : health_fpga_data :=
  (List.range n).foldl
    (fun fp i =>
      let p := parse_port_data b (base + i * HEALTH_PORT_DATA_SIZE)
      if p.port_number < HEALTH_MAX_PORTS then
        { fp with ports := fp.ports.set p.port_number p
                  port_count_received := (fp.port_count_received + 1) % 256 }
      else fp)
    fpga

/-- The per-FPGA tail of `health_parse_response` (lines 303-325): device
header (once), port blocks, packet counter. -/
def health_apply_fpga (b : List Nat) (has_device_header : Bool)
    (port_count_in_packet port_data_offset : Nat)
    (fpga : health_fpga_data) : health_fpga_data :=
  let fpga :=
    if has_device_header ∧ ¬ fpga.device_info_valid then
      { fpga with device := parse_device_header b HEALTH_UDP_PAYLOAD_OFFSET
                  device_info_valid := true }
    else fpga
  let fpga := health_parse_ports b
      (HEALTH_UDP_PAYLOAD_OFFSET + port_data_offset) port_count_in_packet fpga
  { fpga with packets_received := (fpga.packets_received + 1) % 256 }

/-- `health_parse_response` (health_monitor.c lines 230-327): size-directed
classification of one accepted frame and mutation of the cycle data. -/
def health_parse_response (b : List Nat) (len : Nat)
    (cycle : health_cycle_data) : health_cycle_data :=
  if len = HEALTH_PKT_SIZE_WITH_HEADER then
    -- 1187 bytes: device header + 8 ports, FPGA identified by status_enable
    let se := rd1 b (HEALTH_UDP_PAYLOAD_OFFSET + DEV_OFF_STATUS_ENABLE)
    if se = STATUS_ENABLE_ASSISTANT then
      { cycle with
        assistant := health_apply_fpga b true 8 HEALTH_DEVICE_HEADER_SIZE
          cycle.assistant
        last_fpga_type := STATUS_ENABLE_ASSISTANT
        total_responses_received := (cycle.total_responses_received + 1) % 256 }
    else if se = STATUS_ENABLE_MANAGER then
      { cycle with
        manager := health_apply_fpga b true 8 HEALTH_DEVICE_HEADER_SIZE
          cycle.manager
        last_fpga_type := STATUS_ENABLE_MANAGER
        total_responses_received := (cycle.total_responses_received + 1) % 256 }
    else cycle  -- unknown status_enable: logged, ignored
  else if len = HEALTH_PKT_SIZE_8_PORTS then
    -- 1083 bytes: mini header + 8 ports, attributed to last identified FPGA
    if cycle.last_fpga_type = STATUS_ENABLE_ASSISTANT then
      { cycle with
        assistant := health_apply_fpga b false 8 HEALTH_MINI_HEADER_SIZE
          cycle.assistant
        total_responses_received := (cycle.total_responses_received + 1) % 256 }
    else if cycle.last_fpga_type = STATUS_ENABLE_MANAGER then
      { cycle with
        manager := health_apply_fpga b false 8 HEALTH_MINI_HEADER_SIZE
          cycle.manager
        total_responses_received := (cycle.total_responses_received + 1) % 256 }
    else cycle  -- continuation before any 1187-byte frame: logged, ignored
  else if len = HEALTH_PKT_SIZE_3_PORTS then
    -- 438 bytes: mini header + 3 ports, same attribution rule
    if cycle.last_fpga_type = STATUS_ENABLE_ASSISTANT then
      { cycle with
        assistant := health_apply_fpga b false 3 HEALTH_MINI_HEADER_SIZE
          cycle.assistant
        total_responses_received := (cycle.total_responses_received + 1) % 256 }
    else if cycle.last_fpga_type = STATUS_ENABLE_MANAGER then
      { cycle with
        manager := health_apply_fpga b false 3 HEALTH_MINI_HEADER_SIZE
          cycle.manager
        total_responses_received := (cycle.total_responses_received + 1) % 256 }
    else cycle
  else
    -- Not an FPGA packet: treat as MCU data when long enough
    if len ≥ HEALTH_UDP_PAYLOAD_OFFSET + MCU_OFF_FO_TRANS_TEMP + 2 then
      { cycle with
        mcu := { parse_mcu_data b HEALTH_UDP_PAYLOAD_OFFSET cycle.mcu with
                   valid := true }
        total_responses_received := (cycle.total_responses_received + 1) % 256 }
    else cycle  -- unexpected small packet: logged, ignored

/-- Processing one cycle's accepted frames in arrival order
(`receive_health_responses` feeding `health_parse_response`). -/
def health_run (frames : List (List Nat × Nat)) (c : health_cycle_data) :
    health_cycle_data :=
  frames.foldl (fun c fl => health_parse_response fl.1 fl.2 c) c

-- ==========================================
-- Concrete fixtures for witnesses / counterexamples
-- ==========================================

/-- A freshly initialized session (after `ptp_session_init` +
`ptp_init_port_identity`) on rx_vlan 101, tx_vlan 97, tx_vl_idx 4420. -/
def sampleSession : ptp_session_t where
  port_id := 0
  tx_port_id := 1
  vlan_id := 101
  rx_vlan_id := 101
  tx_vlan_id := 97
  tx_vl_idx := 4420
  rx_vl_idx := 0
  session_idx := 0
  state := PtpState.LISTENING
  last_state_change := 0
  master_port_id := ⟨[0, 0, 0, 0, 0, 0, 0, 0], 0⟩
  master_domain := 0
  our_port_id := ⟨[0x2C, 0x1A, 0, 0, 0, 0, 0, 0], 0⟩
  sync_seq_id := 0
  delay_req_seq_id := 0
  last_delay_req_seq_id := 0
  t1_ns := 0
  t2_tsc := 0
  t2_realtime_ns := 0
  t3_tsc := 0
  t3_realtime_ns := 0
  t4_ns := 0
  offset_ns := 0
  delay_ns := 0
  tsc_hz := 0
  sync_rx_count := 0
  delay_req_tx_count := 0
  delay_resp_rx_count := 0
  sync_timeout_count := 0
  sync_errors := 0
  last_sync_tsc := 0
  last_delay_req_tsc := 0
  is_synced := false
  sync_count := 0

/-- A zero-filled per-port record (cycle reset state). -/
def zeroPort : health_port_info where
  port_number := 0
  bit_status := 0
  crc_err_count := 0
  ali_err_count := 0
  len_exc_64 := 0
  len_exc_1518 := 0
  min_vl_frame_err := 0
  max_vl_frame_err := 0
  inp_port_terr_cnt := 0
  traffic_policy_drop := 0
  be_count := 0
  tx_count := 0
  rx_count := 0
  vl_source_err := 0
  max_delay_err := 0
  queue_overflow := 0
  vlid_drop_count := 0
  undef_mac_count := 0
  hp_queue_overflow := 0
  lp_queue_overflow := 0
  be_queue_overflow := 0
  max_delay_param := 0
  port_speed := 0
  valid := false

/-- A zero-filled device record. -/
def zeroDevice : health_device_info where
  device_id := 0
  operation_type := 0
  config_type := 0
  frame_length := 0
  status_enable := 0
  status_addr := 0
  tx_total_count := 0
  rx_total_count := 0
  tx_err_total_count := 0
  rx_err_total_count := 0
  heartbeat := 0
  device_id2 := 0
  port_count := 0
  token_bucket_status := 0
  sw_mode := 0
  vendor_id := 0
  auto_mac_update := 0
  upstream_mode := 0
  sw_ip_major := 0
  sw_ip_minor := 0
  sw_ip_patch := 0
  es_ip_major := 0
  es_ip_minor := 0
  es_ip_patch := 0
  sw_input_fifo_size := 0
  pkt_pro_fifo_size := 0
  sw_output_fifo_size := 0
  hp_fifo_size := 0
  lp_fifo_size := 0
  be_fifo_size := 0
  tod_ns := 0
  tod_sec := 0
  eth_wrong_dev_cnt := 0
  eth_wrong_op_cnt := 0
  eth_wrong_type_cnt := 0
  fpga_voltage := 0
  fpga_temp := 0
  config_id := 0

/-- A zero-filled MCU record. -/
def zeroMcu : health_mcu_info where
  device_id := 0
  operation_type := 0
  config_type := 0
  frame_length := 0
  status_enable := 0
  fw_major := 0
  fw_minor := 0
  comp_stat := 0
  comp_status := 0
  volt_12v := 0
  curr_12v := 0
  volt_3v3 := 0
  curr_3v3 := 0
  volt_1v8 := 0
  curr_1v8 := 0
  volt_3v3_fo := 0
  curr_3v3_fo := 0
  curr_1v3 := 0
  volt_1v3 := 0
  curr_1v0_mgr := 0
  volt_1v0_mgr := 0
  volt_1v0_ast := 0
  curr_1v0_ast := 0
  vdiv_3v3 := 0
  vdiv_3v3_fo := 0
  vdiv_12v := 0
  board_temp := 0
  fo_trans_temp := 0
  valid := false

/-- The cycle-reset state (`memset(&cycle, 0, sizeof(cycle))`). -/
def healthCycleInit : health_cycle_data where
  assistant := ⟨zeroDevice, List.replicate HEALTH_MAX_PORTS zeroPort, 0, false, 0⟩
  manager := ⟨zeroDevice, List.replicate HEALTH_MAX_PORTS zeroPort, 0, false, 0⟩
  mcu := zeroMcu
  total_responses_received := 0
  last_fpga_type := 0

/-- A session awaiting a Delay_Resp for sequence id 5, with non-zero
previously computed offset/delay. -/
def missingT4Session : ptp_session_t :=
  { sampleSession with
      state := PtpState.DELAY_REQ_SENT
      last_delay_req_seq_id := 5
      offset_ns := 7
      delay_ns := 9 }

/-- A session on the untagged VLAN (rx_vlan 0) awaiting the Delay_Resp for
sequence id 1. -/
def delayRespSession : ptp_session_t :=
  { sampleSession with
      vlan_id := 0
      rx_vlan_id := 0
      state := PtpState.DELAY_REQ_SENT
      last_delay_req_seq_id := 1 }

/-- An untagged Delay_Resp frame carrying sequence id 99 and receive
timestamp 1000 s / 100 ns (14-byte Ethernet + 54-byte PTP body). -/
def delayRespFrame99 : List Nat :=
  [0, 0, 0, 0, 0, 0, 0, 0, 0, 0, 0, 0, 0x88, 0xF7,
   0x09, 0x02, 0x00, 0x36, 0x0A, 0x00, 0x00, 0x00,
   0, 0, 0, 0, 0, 0, 0, 0,
   0, 0, 0, 0,
   0, 0, 0, 0, 0, 0, 0, 0, 0, 0,
   0x00, 0x63,
   0x03, 0x7F,
   0x00, 0x00, 0x00, 0x00, 0x03, 0xE8, 0x00, 0x00, 0x00, 0x64,
   0, 0, 0, 0, 0, 0, 0, 0, 0, 0]

/-- An untagged Sync frame carrying sequence id 7 and origin timestamp
1000 s / 0 ns (14-byte Ethernet + 44-byte PTP body). -/
def syncFrame7 : List Nat :=
  [0, 0, 0, 0, 0, 0, 0, 0, 0, 0, 0, 0, 0x88, 0xF7,
   0x00, 0x02, 0x00, 0x2C, 0x0A, 0x00, 0x00, 0x00,
   0, 0, 0, 0, 0, 0, 0, 0,
   0, 0, 0, 0,
   0xAA, 0xBB, 0, 0, 0, 0, 0, 0, 0, 1,
   0x00, 0x07,
   0x00, 0x00,
   0x00, 0x00, 0x00, 0x00, 0x03, 0xE8, 0x00, 0x00, 0x00, 0x00]

/-- An untagged-VLAN session already in SYNC_RECEIVED (mid-cycle). -/
def syncRecVlan0 : ptp_session_t :=
  { sampleSession with
      vlan_id := 0
      rx_vlan_id := 0
      state := PtpState.SYNC_RECEIVED
      t1_ns := 111
      t2_tsc := 222
      t2_realtime_ns := 333 }

/-- An untagged-VLAN session in LISTENING. -/
def syncVlan0Listening : ptp_session_t :=
  { sampleSession with vlan_id := 0, rx_vlan_id := 0 }

/-- A session mid-cycle in SYNC_RECEIVED (on the tagged VLAN). -/
def syncRecSession : ptp_session_t :=
  { sampleSession with state := PtpState.SYNC_RECEIVED }

/-- A session whose next Delay_Req sequence id is 0xFFFF. -/
def wrapSession : ptp_session_t :=
  { sampleSession with delay_req_seq_id := 65535 }

/-- The golden-frame session of spec scenario 5: tx_vlan 97, tx_vl_idx 4420,
delay_req_seq_id 5, identity from `ptp_init_port_identity`. -/
def goldenSession : ptp_session_t :=
  ptp_init_port_identity { sampleSession with delay_req_seq_id := 5 }

-- ==========================================
-- Helper lemmas
-- ==========================================

/-- Signed 64-bit wrap is the identity on in-range values. -/
lemma i64_eq_self (x : Int) (h1 : -9223372036854775808 ≤ x)
    (h2 : x < 9223372036854775808) : i64 x = x := by
  unfold i64
  omega

-- ==========================================
-- Claims
-- ==========================================

/-- C1: for a completed cycle with t1, t2_realtime, t3_realtime, t4 all
non-zero (and within the signed-64-bit-safe range every real timestamp
occupies), `ptp_calculate_offset_delay` stores
offset = ((t2_realtime − t1) − (t4 − t3_realtime)) / 2 and
delay = ((t2_realtime − t1) + (t4 − t3_realtime)) / 2,
as signed 64-bit nanoseconds with C (truncating) division. -/
theorem C1_offset_delay_formula (tsc_hz_g : Nat) (s : ptp_session_t)
    (h1 : s.t1_ns ≠ 0) (h2 : s.t2_realtime_ns ≠ 0)
    (h3 : s.t3_realtime_ns ≠ 0) (h4 : s.t4_ns ≠ 0)
    (b1 : s.t1_ns < 4611686018427387904)
    (b2 : s.t2_realtime_ns < 4611686018427387904)
    (b3 : s.t3_realtime_ns < 4611686018427387904)
    (b4 : s.t4_ns < 4611686018427387904) :
    (ptp_calculate_offset_delay tsc_hz_g s).offset_ns =
      cdiv (((s.t2_realtime_ns : Int) - (s.t1_ns : Int)) -
            ((s.t4_ns : Int) - (s.t3_realtime_ns : Int))) 2 ∧
    (ptp_calculate_offset_delay tsc_hz_g s).delay_ns =
      cdiv (((s.t2_realtime_ns : Int) - (s.t1_ns : Int)) +
            ((s.t4_ns : Int) - (s.t3_realtime_ns : Int))) 2 := by
  have e1 : i64 (s.t1_ns : Int) = (s.t1_ns : Int) :=
    i64_eq_self _ (by omega) (by omega)
  have e2 : i64 (s.t2_realtime_ns : Int) = (s.t2_realtime_ns : Int) :=
    i64_eq_self _ (by omega) (by omega)
  have e3 : i64 (s.t3_realtime_ns : Int) = (s.t3_realtime_ns : Int) :=
    i64_eq_self _ (by omega) (by omega)
  have e4 : i64 (s.t4_ns : Int) = (s.t4_ns : Int) :=
    i64_eq_self _ (by omega) (by omega)
  have e21 : i64 ((s.t2_realtime_ns : Int) - (s.t1_ns : Int)) =
      (s.t2_realtime_ns : Int) - (s.t1_ns : Int) :=
    i64_eq_self _ (by omega) (by omega)
  have e43 : i64 ((s.t4_ns : Int) - (s.t3_realtime_ns : Int)) =
      (s.t4_ns : Int) - (s.t3_realtime_ns : Int) :=
    i64_eq_self _ (by omega) (by omega)
  unfold ptp_calculate_offset_delay
  rw [if_neg h4]
  constructor <;>
    · simp only
      rw [e2, e1, e21, e4, e3, e43, i64_eq_self _ (by omega) (by omega)]

/-- C1 witness: a concrete in-range cycle. -/
theorem C1_offset_delay_formula_witness :
    (ptp_calculate_offset_delay 0
      { sampleSession with t1_ns := 100, t2_realtime_ns := 150,
                           t3_realtime_ns := 250, t4_ns := 300 }).offset_ns =
      cdiv (((150 : Int) - 100) - ((300 : Int) - 250)) 2 ∧
    (ptp_calculate_offset_delay 0
      { sampleSession with t1_ns := 100, t2_realtime_ns := 150,
                           t3_realtime_ns := 250, t4_ns := 300 }).delay_ns =
      cdiv (((150 : Int) - 100) + ((300 : Int) - 250)) 2 :=
  C1_offset_delay_formula 0 _ (by decide) (by decide) (by decide) (by decide)
    (by decide) (by decide) (by decide) (by decide)

/-- C2 counterexample: a session with previous offset 7 / delay 9 accepts a
sequence-matched Delay_Resp whose receive timestamp is zero; the code does
NOT keep the previous values — it zeroes them (state still goes SYNCED). -/
theorem C2_missing_t4_counterexample :
    missingT4Session.offset_ns = 7 ∧ missingT4Session.delay_ns = 9 ∧
    (ptp_handle_delay_resp 0 missingT4Session 5 ⟨0, 0, 0⟩ 123).offset_ns ≠ 7 ∧
    (ptp_handle_delay_resp 0 missingT4Session 5 ⟨0, 0, 0⟩ 123).delay_ns ≠ 9 := by
  decide

/-- C2 amended: accepting a sequence-matched Delay_Resp with t4 = 0 in state
DELAY_REQ_SENT skips the formula and SETS offset_ns and delay_ns to zero
(previous values are overwritten), while the state still transitions to
SYNCED; no missing-t4 counter exists in the code. -/
theorem C2_missing_t4_zeroes_values (tsc_hz_g now_tsc : Nat)
    (s : ptp_session_t) (seq_id : Nat) (ts : ptp_timestamp_t)
    (hseq : seq_id = s.last_delay_req_seq_id)
    (hts : ptp_timestamp_to_ns ts = 0)
    (hst : s.state = PtpState.DELAY_REQ_SENT) :
    (ptp_handle_delay_resp tsc_hz_g s seq_id ts now_tsc).offset_ns = 0 ∧
    (ptp_handle_delay_resp tsc_hz_g s seq_id ts now_tsc).delay_ns = 0 ∧
    (ptp_handle_delay_resp tsc_hz_g s seq_id ts now_tsc).state =
      PtpState.SYNCED ∧
    (ptp_handle_delay_resp tsc_hz_g s seq_id ts now_tsc).t4_ns = 0 := by
  simp [ptp_handle_delay_resp, hseq, hst, hts, ptp_calculate_offset_delay]

/-- C2 witness. -/
theorem C2_missing_t4_zeroes_values_witness :
    (ptp_handle_delay_resp 0 missingT4Session 5 ⟨0, 0, 0⟩ 123).offset_ns = 0 ∧
    (ptp_handle_delay_resp 0 missingT4Session 5 ⟨0, 0, 0⟩ 123).delay_ns = 0 ∧
    (ptp_handle_delay_resp 0 missingT4Session 5 ⟨0, 0, 0⟩ 123).state =
      PtpState.SYNCED ∧
    (ptp_handle_delay_resp 0 missingT4Session 5 ⟨0, 0, 0⟩ 123).t4_ns = 0 :=
  C2_missing_t4_zeroes_values 0 123 missingT4Session 5 ⟨0, 0, 0⟩ (by decide)
    (by decide) (by decide)

/-- C3 counterexample: in DELAY_REQ_SENT, a Delay_Resp with sequence id 99
(≠ last_delay_req_seq_id = 1) leaves the state alone but DOES change
`delay_resp_rx_count` — `ptp_packet_process` increments it before any
sequence check. -/
theorem C3_mismatched_seq_counterexample :
    delayRespSession.delay_resp_rx_count = 0 ∧
    (ptp_packet_process delayRespSession delayRespFrame99 1 2 3 4).2.state =
      PtpState.DELAY_REQ_SENT ∧
    (ptp_packet_process delayRespSession delayRespFrame99 1 2 3
      4).2.delay_resp_rx_count ≠ delayRespSession.delay_resp_rx_count := by
  decide

/-- C3 amended: a sequence-mismatched Delay_Resp leaves the whole session
unchanged EXCEPT that `delay_resp_rx_count` is incremented (the increment in
`ptp_packet_process` is unconditional); the state stays DELAY_REQ_SENT. -/
theorem C3_mismatched_seq_counts (s : ptp_session_t) (f : List Nat)
    (rx_tsc realtime_ns now_tsc tsc_hz_g off : Nat)
    (hp : ptp_is_ptp_packet f = true)
    (hm : ptp_get_msg_type f = some PTP_MSG_DELAY_RESP)
    (hv : ptp_get_vlan_id f = s.rx_vlan_id)
    (ho : get_ptp_header_off f = some off)
    (hs : rd2 f (off + 30) ≠ s.last_delay_req_seq_id) :
    (ptp_packet_process s f rx_tsc realtime_ns now_tsc tsc_hz_g).2 =
      { s with delay_resp_rx_count :=
          (s.delay_resp_rx_count + 1) % 18446744073709551616 } := by
  have hd : ptp_handle_delay_resp tsc_hz_g s (rd2 f (off + 30))
      (read_ptp_timestamp f (off + 34)) now_tsc = s := by
    unfold ptp_handle_delay_resp
    rw [if_pos hs]
  unfold ptp_packet_process
  rw [hp, hm, ho]
  simp [hv, hd, PTP_MSG_SYNC, PTP_MSG_DELAY_RESP]

/-- C3 witness. -/
theorem C3_mismatched_seq_counts_witness :
    (ptp_packet_process delayRespSession delayRespFrame99 1 2 3 4).2 =
      { delayRespSession with delay_resp_rx_count :=
          (delayRespSession.delay_resp_rx_count + 1) % 18446744073709551616 } :=
  C3_mismatched_seq_counts delayRespSession delayRespFrame99 1 2 3 4 14
    (by decide) (by decide) (by decide) (by decide) (by decide)

/-- Byte-level content of the transmitted sequence-id field: frame bytes
48-49 of a built Delay_Req carry `delay_req_seq_id` as a 16-bit value. -/
lemma rd2_build_seq (s : ptp_session_t) :
    rd2 (ptp_build_delay_req s) 48 = s.delay_req_seq_id % 65536 := by
  have h0 : rd1 (ptp_build_delay_req s) 48 =
      s.delay_req_seq_id % 65536 / 256 % 256 := rfl
  have h1 : rd1 (ptp_build_delay_req s) 49 =
      s.delay_req_seq_id % 65536 % 256 := rfl
  unfold rd2
  rw [h0, h1]
  omega

/-- C4 counterexample: a session whose counter is at 0xFFFF transmits
sequence id 65535 and the very next Delay_Req carries sequence id 0 —
the wrap DOES land on zero. -/
theorem C4_wrap_counterexample :
    rd2 (ptp_build_delay_req wrapSession) 48 = 65535 ∧
    (ptp_send_delay_req_update wrapSession 10 20).delay_req_seq_id = 0 ∧
    rd2 (ptp_build_delay_req (ptp_send_delay_req_update wrapSession 10 20)) 48
      = 0 := by
  decide

/-- C4 amended: the transmitted Delay_Req sequence id strictly increases by
one modulo 2^16 between successive sends, wrapping naturally THROUGH zero
(after 0xFFFF the next Delay_Req carries id 0); the sent id is recorded in
`last_delay_req_seq_id`. -/
theorem C4_seq_monotone_mod_2_16 (s : ptp_session_t)
    (tx_tsc realtime_ns : Nat) :
    rd2 (ptp_build_delay_req (ptp_send_delay_req_update s tx_tsc realtime_ns))
        48 = (rd2 (ptp_build_delay_req s) 48 + 1) % 65536 ∧
    (ptp_send_delay_req_update s tx_tsc realtime_ns).last_delay_req_seq_id =
      s.delay_req_seq_id := by
  refine ⟨?_, rfl⟩
  rw [rd2_build_seq, rd2_build_seq]
  show (s.delay_req_seq_id + 1) % 65536 % 65536 = _
  omega

set_option maxRecDepth 10000 in
/-- C5: the golden Delay_Req frame for tx_vlan 97, tx_vl_idx 4420, sequence
id 5: dst MAC 03:00:00:00:11:44, src MAC 02:00:00:00:00:20, TPID 0x8100 with
TCI 0x0061, inner EtherType 0x88F7, PTP byte 0 = 0x01, length 0x006A, domain
0x0A, flags 01 02, seq id 00 05, control 01, logMessageInterval 0xFF, a
106-byte PTP payload (124-byte frame) with a zeroed origin timestamp and
payload bytes 44..105 all zero. -/
theorem C5_golden_delay_req :
    (ptp_build_delay_req goldenSession).length = 18 + 106 ∧
    (ptp_build_delay_req goldenSession).take 6 = [0x03, 0, 0, 0, 0x11, 0x44] ∧
    ((ptp_build_delay_req goldenSession).drop 6).take 6 =
      [0x02, 0, 0, 0, 0, 0x20] ∧
    rd2 (ptp_build_delay_req goldenSession) 12 = 0x8100 ∧
    rd2 (ptp_build_delay_req goldenSession) 14 = 0x0061 ∧
    rd2 (ptp_build_delay_req goldenSession) 16 = 0x88F7 ∧
    rd1 (ptp_build_delay_req goldenSession) 18 = 0x01 ∧
    rd2 (ptp_build_delay_req goldenSession) 20 = 0x006A ∧
    rd1 (ptp_build_delay_req goldenSession) 22 = 0x0A ∧
    rd1 (ptp_build_delay_req goldenSession) 24 = 0x01 ∧
    rd1 (ptp_build_delay_req goldenSession) 25 = 0x02 ∧
    rd2 (ptp_build_delay_req goldenSession) 48 = 5 ∧
    rd1 (ptp_build_delay_req goldenSession) 50 = 0x01 ∧
    rd1 (ptp_build_delay_req goldenSession) 51 = 0xFF ∧
    ((ptp_build_delay_req goldenSession).drop 52).take 10 =
      List.replicate 10 0 ∧
    (ptp_build_delay_req goldenSession).drop 62 = List.replicate 62 0 := by
  decide

/-- C6: handling a Sync in SYNC_RECEIVED or DELAY_REQ_SENT updates exactly
the master identity, master domain, sync sequence id and `last_sync_tick`;
every other field — in particular t1, t2_tick and t2_realtime, and the
state — is unchanged. -/
theorem C6_sync_mid_cycle_preserves_t1_t2 (s : ptp_session_t)
    (pid : PtpPortIdentity) (dom seq : Nat) (ts : ptp_timestamp_t)
    (rx_tsc realtime_ns : Nat)
    (h : s.state = PtpState.SYNC_RECEIVED ∨
         s.state = PtpState.DELAY_REQ_SENT) :
    ptp_handle_sync s pid dom seq ts rx_tsc realtime_ns =
      { s with master_port_id := pid
               master_domain := dom
               sync_seq_id := seq
               last_sync_tsc := rx_tsc } := by
  unfold ptp_handle_sync
  rcases h with h | h <;> simp [h]

/-- C6 witness. -/
theorem C6_sync_mid_cycle_preserves_t1_t2_witness :
    ptp_handle_sync syncRecSession ⟨[1, 2, 3, 4, 5, 6, 7, 8], 2⟩ 10 7
        ⟨0, 1000, 0⟩ 55 66 =
      { syncRecSession with master_port_id := ⟨[1, 2, 3, 4, 5, 6, 7, 8], 2⟩
                            master_domain := 10
                            sync_seq_id := 7
                            last_sync_tsc := 55 } :=
  C6_sync_mid_cycle_preserves_t1_t2 syncRecSession ⟨[1, 2, 3, 4, 5, 6, 7, 8], 2⟩
    10 7 ⟨0, 1000, 0⟩ 55 66 (Or.inl rfl)

/-- C7 counterexample: a Sync processed while the session is in
SYNC_RECEIVED (not in {LISTENING, SYNCED, ERROR}) still increments
`sync_rx_count` — the increment in `ptp_packet_process` is unconditional. -/
theorem C7_sync_count_counterexample :
    syncRecVlan0.state = PtpState.SYNC_RECEIVED ∧
    (ptp_packet_process syncRecVlan0 syncFrame7 1 2 3 4).2.sync_rx_count ≠
      syncRecVlan0.sync_rx_count := by
  decide

/-- The Sync handler itself never touches `sync_rx_count`. -/
lemma handle_sync_sync_rx_count (s : ptp_session_t) (pid : PtpPortIdentity)
    (dom seq : Nat) (ts : ptp_timestamp_t) (rx_tsc realtime_ns : Nat) :
    (ptp_handle_sync s pid dom seq ts rx_tsc realtime_ns).sync_rx_count =
      s.sync_rx_count := by
  unfold ptp_handle_sync
  dsimp only
  split <;> rfl

/-- C7 amended: `sync_rx_count` is incremented for EVERY VLAN-matched Sync
dispatched to the session, regardless of the session state at the time of
handling; the {LISTENING, SYNCED, ERROR} branch controls only the t1/t2
capture and the transition to SYNC_RECEIVED. -/
theorem C7_sync_count_unconditional (s : ptp_session_t) (f : List Nat)
    (rx_tsc realtime_ns now_tsc tsc_hz_g off : Nat)
    (hp : ptp_is_ptp_packet f = true)
    (hm : ptp_get_msg_type f = some PTP_MSG_SYNC)
    (hv : ptp_get_vlan_id f = s.rx_vlan_id)
    (ho : get_ptp_header_off f = some off) :
    (ptp_packet_process s f rx_tsc realtime_ns now_tsc
        tsc_hz_g).2.sync_rx_count =
      (s.sync_rx_count + 1) % 18446744073709551616 := by
  unfold ptp_packet_process
  rw [hp, hm, ho]
  simp [hv, PTP_MSG_SYNC, handle_sync_sync_rx_count]

/-- C7 witness: a VLAN-matched Sync in LISTENING. -/
theorem C7_sync_count_unconditional_witness :
    (ptp_packet_process syncVlan0Listening syncFrame7 1 2 3
        4).2.sync_rx_count =
      (syncVlan0Listening.sync_rx_count + 1) % 18446744073709551616 :=
  C7_sync_count_unconditional syncVlan0Listening syncFrame7 1 2 3 4 14
    (by decide) (by decide) (by decide) (by decide)

/-- The last-FPGA-identified marker is only ever written while classifying a
1187-byte frame. -/
lemma health_marker_preserved (b : List Nat) (len : Nat)
    (c : health_cycle_data) (h : len ≠ HEALTH_PKT_SIZE_WITH_HEADER) :
    (health_parse_response b len c).last_fpga_type = c.last_fpga_type := by
  unfold health_parse_response
  rw [if_neg h]
  split <;> (try split) <;> (try split) <;> (try split) <;> rfl

/-- A continuation frame with the marker unset mutates nothing. -/
lemma health_continuation_discarded (b : List Nat) (len : Nat)
    (c : health_cycle_data)
    (hl : len = HEALTH_PKT_SIZE_8_PORTS ∨ len = HEALTH_PKT_SIZE_3_PORTS)
    (hma : c.last_fpga_type ≠ STATUS_ENABLE_ASSISTANT)
    (hmm : c.last_fpga_type ≠ STATUS_ENABLE_MANAGER) :
    health_parse_response b len c = c := by
  unfold health_parse_response
  rcases hl with h | h <;> subst h
  · rw [if_neg (by decide), if_pos rfl, if_neg hma, if_neg hmm]
  · rw [if_neg (by decide), if_neg (by decide), if_pos rfl, if_neg hma,
      if_neg hmm]

/-- Over a run of frames none of which is 1187 bytes, the marker keeps its
starting value. -/
lemma health_run_marker (frames : List (List Nat × Nat))
    (c : health_cycle_data)
    (h : ∀ fl ∈ frames, fl.2 ≠ HEALTH_PKT_SIZE_WITH_HEADER) :
    (health_run frames c).last_fpga_type = c.last_fpga_type := by
  induction frames generalizing c with
  | nil => rfl
  | cons hd tl ih =>
    have hstep : health_run (hd :: tl) c =
        health_run tl (health_parse_response hd.1 hd.2 c) := rfl
    rw [hstep, ih _ (fun fl hf => h fl (List.mem_cons_of_mem _ hf))]
    exact health_marker_preserved hd.1 hd.2 c (h hd (List.mem_cons_self _ _))

/-- C8: starting from a cycle state whose last-FPGA marker is unset and
processing any frames among which no 1187-byte frame occurs, a 1083- or
438-byte continuation frame is discarded without mutating either FPGA
accumulator or the response count (the whole cycle state is unchanged);
continuation frames are attributed only after a 1187-byte frame sets the
marker. -/
theorem C8_continuation_requires_identification
    (frames : List (List Nat × Nat)) (b : List Nat) (len : Nat)
    (c : health_cycle_data)
    (hfr : ∀ fl ∈ frames, fl.2 ≠ HEALTH_PKT_SIZE_WITH_HEADER)
    (hma : c.last_fpga_type ≠ STATUS_ENABLE_ASSISTANT)
    (hmm : c.last_fpga_type ≠ STATUS_ENABLE_MANAGER)
    (hl : len = HEALTH_PKT_SIZE_8_PORTS ∨ len = HEALTH_PKT_SIZE_3_PORTS) :
    health_parse_response b len (health_run frames c) =
      health_run frames c := by
  have hm := health_run_marker frames c hfr
  exact health_continuation_discarded b len _ hl
    (by rw [hm]; exact hma) (by rw [hm]; exact hmm)

/-- C8 witness: after a reset and one MCU-sized frame, a 1083-byte
continuation is a no-op. -/
theorem C8_continuation_requires_identification_witness :
    health_parse_response (List.replicate 1083 0) 1083
        (health_run [(List.replicate 94 0, 94)] healthCycleInit) =
      health_run [(List.replicate 94 0, 94)] healthCycleInit :=
  C8_continuation_requires_identification [(List.replicate 94 0, 94)]
    (List.replicate 1083 0) 1083 healthCycleInit
    (by decide) (by decide) (by decide) (Or.inl rfl)

/-- C9: the codec treats the high 2 bytes of the 6-byte wire seconds field
(`seconds_msb`) as don't-care on receive — any two wire timestamps agreeing
on `seconds_lsb` and `nanoseconds` parse identically (and to
seconds_lsb · 10⁹ + nanoseconds, totally, with no error path) — and
`ns_to_ptp_timestamp` writes zero into those 2 bytes on transmit. -/
theorem C9_seconds_msb_dont_care :
    (∀ ts1 ts2 : ptp_timestamp_t, ts1.seconds_lsb = ts2.seconds_lsb →
      ts1.nanoseconds = ts2.nanoseconds →
      ptp_timestamp_to_ns ts1 = ptp_timestamp_to_ns ts2) ∧
    (∀ ts : ptp_timestamp_t, ts.seconds_lsb < 4294967296 →
      ts.nanoseconds < 4294967296 →
      ptp_timestamp_to_ns ts = ts.seconds_lsb * 1000000000 + ts.nanoseconds) ∧
    (∀ ns : Nat, (ns_to_ptp_timestamp ns).seconds_msb = 0) := by
  refine ⟨fun ts1 ts2 h1 h2 => ?_, fun ts h1 h2 => ?_, fun ns => rfl⟩
  · unfold ptp_timestamp_to_ns
    rw [h1, h2]
  · unfold ptp_timestamp_to_ns
    omega

/-- C9 witness: two wire timestamps differing only in seconds_msb. -/
theorem C9_seconds_msb_dont_care_witness :
    ptp_timestamp_to_ns ⟨1, 1000, 5⟩ = ptp_timestamp_to_ns ⟨777, 1000, 5⟩ ∧
    ptp_timestamp_to_ns ⟨1, 1000, 5⟩ = 1000 * 1000000000 + 5 ∧
    (ns_to_ptp_timestamp 123456789012).seconds_msb = 0 :=
  ⟨C9_seconds_msb_dont_care.1 ⟨1, 1000, 5⟩ ⟨777, 1000, 5⟩ rfl rfl,
   C9_seconds_msb_dont_care.2.1 ⟨1, 1000, 5⟩ (by decide) (by decide),
   C9_seconds_msb_dont_care.2.2 123456789012⟩

/-- C10: an accepted frame of non-FPGA length is parsed as an MCU record
(mcu fields decoded, mcu.valid set, total_responses_received incremented)
exactly when its length reaches UDP-payload offset (42) +
fo_transceiver_temperature offset (48) + 2 = 92 bytes; any shorter frame —
in particular one byte shorter — is rejected without mutating the cycle. -/
theorem C10_mcu_minimum_length (b : List Nat) (len : Nat)
    (c : health_cycle_data)
    (h1 : len ≠ HEALTH_PKT_SIZE_WITH_HEADER)
    (h2 : len ≠ HEALTH_PKT_SIZE_8_PORTS)
    (h3 : len ≠ HEALTH_PKT_SIZE_3_PORTS) :
    (HEALTH_UDP_PAYLOAD_OFFSET + MCU_OFF_FO_TRANS_TEMP + 2 ≤ len →
      health_parse_response b len c =
        { c with
            mcu := { parse_mcu_data b HEALTH_UDP_PAYLOAD_OFFSET c.mcu with
                       valid := true }
            total_responses_received :=
              (c.total_responses_received + 1) % 256 }) ∧
    (len < HEALTH_UDP_PAYLOAD_OFFSET + MCU_OFF_FO_TRANS_TEMP + 2 →
      health_parse_response b len c = c) := by
  unfold health_parse_response
  rw [if_neg h1, if_neg h2, if_neg h3]
  constructor
  · intro h
    rw [if_pos h]
  · intro h
    rw [if_neg (by omega)]

/-- C10 witness: a 92-byte frame decodes fully; a 91-byte frame is a no-op. -/
theorem C10_mcu_minimum_length_witness :
    health_parse_response (List.replicate 92 7) 92 healthCycleInit =
      { healthCycleInit with
          mcu := { parse_mcu_data (List.replicate 92 7)
                     HEALTH_UDP_PAYLOAD_OFFSET healthCycleInit.mcu with
                     valid := true }
          total_responses_received :=
            (healthCycleInit.total_responses_received + 1) % 256 } ∧
    health_parse_response (List.replicate 91 7) 91 healthCycleInit =
      healthCycleInit :=
  ⟨(C10_mcu_minimum_length (List.replicate 92 7) 92 healthCycleInit
      (by decide) (by decide) (by decide)).1 (by decide),
   (C10_mcu_minimum_length (List.replicate 91 7) 91 healthCycleInit
      (by decide) (by decide) (by decide)).2 (by decide)⟩

end SeqUpdate
